import Mathlib

/-!
Verification of the Property REST resource controller
(`src/server/api/property/property.controller.js`).

The controller is embedded shallowly: JavaScript primitive values become
`JsVal`, request bodies and entities become ordered association lists
(`Obj`), the Express `res` sink becomes the ordered list of
(status, body) writes, and each promise chain becomes an explicit
function of the settled outcomes of its data-access calls.  The external
collaborators (the Sequelize-style store and the fast-json-patch
library) are modelled from the capabilities the specification declares
for them.
-/

namespace PropCtrl

/-- JavaScript primitive values as they appear in request bodies and entities. -/
inductive JsVal : Type where
  | num (n : Int)
  | str (s : String)
  | bool (b : Bool)
  | null
deriving Repr, DecidableEq

/-- JavaScript truthiness of a primitive: `0`, the empty string, `false` and `null` are falsy. -/
def JsVal.truthy : JsVal → Bool
  | JsVal.num n => decide (n ≠ 0)
  | JsVal.str s => decide (s ≠ "")
  | JsVal.bool b => b
  | JsVal.null => false

/-- A JavaScript object: an ordered association list of fields. -/
abbrev Obj : Type := List (String × JsVal)

/-- Property read `o[k]`: the first binding wins; a missing key is `undefined` (`none`). -/
def Obj.get : Obj → String → Option JsVal
  | [], _ => none
  | (k1, v1) :: rest, k => if k1 = k then some v1 else Obj.get rest k

/-- JavaScript assignment `o[k] = v`: overwrite the key in place, or append a new key at the end. -/
def Obj.set : Obj → String → JsVal → Obj
  | [], k, v => [(k, v)]
  | (k1, v1) :: rest, k, v =>
      if k1 = k then (k, v) :: rest else (k1, v1) :: Obj.set rest k v

/-- `Reflect.deleteProperty(o, k)`: remove the key from the object. -/
def Obj.deleteProperty : Obj → String → Obj
  | [], _ => []
  | (k1, v1) :: rest, k =>
      if k1 = k then Obj.deleteProperty rest k
      else (k1, v1) :: Obj.deleteProperty rest k

/-- JavaScript truthiness of a property read: a missing property (`undefined`) is falsy. -/
def jsTruthy : Option JsVal → Bool
  | none => false
  | some v => JsVal.truthy v

/-- The values that flow through a controller promise chain: `null`, an entity,
an array of entities (from `findAll`), or the Express `res` object returned by
`res.status(..).json(..)` (which is truthy and never inspected further). -/
inductive ChainVal : Type where
  | nullV
  | obj (o : Obj)
  | arr (xs : List Obj)
  | resEnd
deriving Repr, DecidableEq

/-- JavaScript truthiness of a chain value: only `null` is falsy (arrays are truthy, even empty). -/
def ChainVal.truthy : ChainVal → Bool
  | ChainVal.nullV => false
  | _ => true

/-- A response body written to the Express `res` sink. -/
inductive Body : Type where
  | empty
  | json (v : ChainVal)
  | err (e : String)
deriving Repr, DecidableEq

/-- The `res` sink: the ordered list of (status, body) writes the controller performs. -/
abbrev Res : Type := List (Nat × Body)

/-- A settled JavaScript promise: fulfilled with a value, or rejected with an error. -/
inductive Promise (α : Type) : Type where
  | ok (a : α)
  | rejected (e : String)
deriving Repr, DecidableEq

/-- `x = x || d`: the JavaScript or-default idiom, where `0` is falsy. -/
def jsOr : Option Nat → Nat → Nat
  | none, d => d
  | some n, d => if n = 0 then d else n

/-- `respondWithResult(res, statusCode)` (controller lines 16-24): default status 200;
if the entity is truthy, write the status with the entity serialized as JSON and
return the `res` object; otherwise write nothing and return `null`. -/
def respondWithResult (statusCode : Option Nat) (entity : ChainVal) (r : Res) : Res × ChainVal :=
  if ChainVal.truthy entity then
    (r ++ [(jsOr statusCode 200, Body.json entity)], ChainVal.resEnd)
  else (r, ChainVal.nullV)

/-- `handleEntityNotFound(res)` (controller lines 50-58): if the entity is falsy,
write 404 with an empty body and return `null`; otherwise pass the entity through. -/
def handleEntityNotFound (entity : ChainVal) (r : Res) : Res × ChainVal :=
  if ChainVal.truthy entity then (r, entity)
  else (r ++ [(404, Body.empty)], ChainVal.nullV)

/-- `handleError(res, statusCode)` (controller lines 60-65): default status 500;
write the status with the error serialized as the body. -/
def handleError (statusCode : Option Nat) (e : String) (r : Res) : Res :=
  r ++ [(jsOr statusCode 500, Body.err e)]

/-- Modelled from the spec: one RFC 6902 operation of the external `fast-json-patch`
collaborator, restricted to top-level paths (the key `k` stands for path `/k`). -/
inductive PatchOp : Type where
  | add (path : String) (value : JsVal)
  | remove (path : String)
  | replace (path : String) (value : JsVal)
  | test (path : String) (value : JsVal)
deriving Repr, DecidableEq

/-- Modelled from the spec: applying a single JSON-Patch operation with validation
enabled; an unresolvable path or a failed `test` throws. -/
def applyOp (o : Obj) : PatchOp → Except String Obj
  | PatchOp.add k v => Except.ok (Obj.set o k v)
  | PatchOp.remove k =>
      match Obj.get o k with
      | none => Except.error "OPERATION_PATH_UNRESOLVABLE"
      | some _ => Except.ok (Obj.deleteProperty o k)
  | PatchOp.replace k v =>
      match Obj.get o k with
      | none => Except.error "OPERATION_PATH_UNRESOLVABLE"
      | some _ => Except.ok (Obj.set o k v)
  | PatchOp.test k v =>
      match Obj.get o k with
      | none => Except.error "OPERATION_PATH_UNRESOLVABLE"
      | some w => if w = v then Except.ok o else Except.error "TEST_OPERATION_FAILED"

/-- Modelled from the spec: `jsonpatch.apply(entity, patches, true)` — sequential,
fail-fast application of the operations with validation. -/
def applyJsonPatch (o : Obj) : List PatchOp → Except String Obj
  | [] => Except.ok o
  | p :: rest =>
      match applyOp o p with
      | Except.error e => Except.error e
      | Except.ok o1 => applyJsonPatch o1 rest

/-- The TypeError raised inside `patchUpdates` when the incoming chain value is
`null`: `jsonpatch.apply(null, ...)` throws while reading a property of `null`
(and for an empty patch list, `entity.save()` on `null` throws instead). -/
def nullEntityErr : String := "TypeError: cannot read properties of null"

/-- `patchUpdates(patches)` up to the `entity.save()` call (controller lines 26-37):
for a `null` entity the callback throws (no guard, unlike `removeEntity`), which
becomes a rejection; for an entity, a patch-application failure is caught and
returned as `Promise.reject(err)`; on success the mutated entity goes to `save`. -/
def patchUpdatesPre (patches : List PatchOp) : ChainVal → Except String Obj
  | ChainVal.obj o => applyJsonPatch o patches
  | _ => Except.error nullEntityErr

/-- Sequelize-style `find` resolves with the entity or with `null` when absent. -/
def optToChain : Option Obj → ChainVal
  | none => ChainVal.nullV
  | some o => ChainVal.obj o

/-- `index` (controller lines 68-72) as a function of the `findAll` outcome:
`findAll().then(respondWithResult(res)).catch(handleError(res))`. -/
def index_chain (findAllOutcome : Promise (List Obj)) : Res :=
  match findAllOutcome with
  | Promise.rejected e => handleError none e []
  | Promise.ok entities => (respondWithResult none (ChainVal.arr entities) []).1

/-- `show` (controller lines 75-84) as a function of the `find` outcome:
`find(..).then(handleEntityNotFound(res)).then(respondWithResult(res)).catch(handleError(res))`. -/
def show_chain (findOutcome : Promise (Option Obj)) : Res :=
  match findOutcome with
  | Promise.rejected e => handleError none e []
  | Promise.ok found =>
      let s1 := handleEntityNotFound (optToChain found) []
      (respondWithResult none s1.2 s1.1).1

/-- `create` (controller lines 87-91) as a function of the `Property.create` outcome:
`create(req.body).then(respondWithResult(res, 201)).catch(handleError(res))`. -/
def create_chain (createOutcome : Promise Obj) : Res :=
  match createOutcome with
  | Promise.rejected e => handleError none e []
  | Promise.ok entity => (respondWithResult (some 201) (ChainVal.obj entity) []).1

/-- `upsert` (controller lines 94-106) after the body strip, as a function of the
`Property.upsert` outcome: `upsert(..).then(respondWithResult(res)).catch(handleError(res))`. -/
def upsert_chain (upsertOutcome : Promise Obj) : Res :=
  match upsertOutcome with
  | Promise.rejected e => handleError none e []
  | Promise.ok entity => (respondWithResult none (ChainVal.obj entity) []).1

/-- `patch` (controller lines 109-122) as a function of the `find` and `save` outcomes:
`find(..).then(handleEntityNotFound(res)).then(patchUpdates(req.body))
.then(respondWithResult(res)).catch(handleError(res))`.
Returns the writes together with the argument passed to `entity.save()`
(`none` when `save` is never called). -/
def patch_chain (findOutcome : Promise (Option Obj)) (patches : List PatchOp)
    (saveOutcome : Obj → Promise Obj) : Res × Option Obj :=
  match findOutcome with
  | Promise.rejected e => (handleError none e [], none)
  | Promise.ok found =>
      let s1 := handleEntityNotFound (optToChain found) []
      match patchUpdatesPre patches s1.2 with
      | Except.error e => (handleError none e s1.1, none)
      | Except.ok o1 =>
          match saveOutcome o1 with
          | Promise.rejected e => (handleError none e s1.1, some o1)
          | Promise.ok saved => ((respondWithResult none (ChainVal.obj saved) s1.1).1, some o1)

/-- `destroy` (controller lines 125-134) as a function of the `find` and
`entity.destroy` outcomes, with `removeEntity` (lines 39-48) inlined: if the
entity is truthy, `entity.destroy().then(() => res.status(204).end())`;
otherwise the step does nothing.  Returns the writes together with whether
`entity.destroy()` was called. -/
def destroy_chain (findOutcome : Promise (Option Obj)) (destroyOutcome : Promise Unit) :
    Res × Bool :=
  match findOutcome with
  | Promise.rejected e => (handleError none e [], false)
  | Promise.ok found =>
      let s1 := handleEntityNotFound (optToChain found) []
      if ChainVal.truthy s1.2 then
        match destroyOutcome with
        | Promise.rejected e => (handleError none e s1.1, true)
        | Promise.ok _ => (s1.1 ++ [(204, Body.empty)], true)
      else (s1.1, false)

/-- Controller lines 95-97 and 110-112:
`if (req.body.id) { Reflect.deleteProperty(req.body, 'id'); }` —
the `id` key is removed only when its value is truthy. -/
def stripBodyId (body : Obj) : Obj :=
  if jsTruthy (Obj.get body "id") then Obj.deleteProperty body "id" else body

/-- Modelled from the spec: the backing store of the external data-access
collaborator — a list of rows plus the next generated primary key. -/
structure Store : Type where
  nextId : Int
  rows : List Obj
deriving Repr, DecidableEq

/-- A row matches a primary key when its `id` attribute equals it. -/
def rowMatches (id : Int) (o : Obj) : Bool :=
  decide (Obj.get o "id" = some (JsVal.num id))

/-- Modelled from the spec: `find({where:{id}}) -> Entity | absent`. -/
def Store.find (st : Store) (id : Int) : Option Obj :=
  List.find? (rowMatches id) st.rows

/-- Modelled from the spec: `create(fields) -> Entity` — insert a new entity whose
fields are the given fields plus a generated `id`. -/
def doCreate (st : Store) (body : Obj) : Obj × Store :=
  (Obj.set body "id" (JsVal.num st.nextId),
   Store.mk (st.nextId + 1) (st.rows ++ [Obj.set body "id" (JsVal.num st.nextId)]))

/-- Modelled from the spec: `upsert(fields, {where:{id}}) -> Entity` —
insert-or-replace the entity at the given `id`. -/
def doUpsert (st : Store) (id : Int) (fields : Obj) : Obj × Store :=
  match Store.find st id with
  | some _ =>
      (Obj.set fields "id" (JsVal.num id),
       Store.mk st.nextId
         (st.rows.map (fun o => if rowMatches id o then Obj.set fields "id" (JsVal.num id) else o)))
  | none =>
      (Obj.set fields "id" (JsVal.num id),
       Store.mk st.nextId (st.rows ++ [Obj.set fields "id" (JsVal.num id)]))

/-- Modelled from the spec: `entity.save()` persists the mutated entity at its row. -/
def Store.saveRow (st : Store) (id : Int) (e : Obj) : Store :=
  Store.mk st.nextId (st.rows.map (fun o => if rowMatches id o then e else o))

/-- Modelled from the spec: `entity.destroy()` deletes the row. -/
def Store.removeRow (st : Store) (id : Int) : Store :=
  Store.mk st.nextId (st.rows.filter (fun o => !(rowMatches id o)))

/-- `index` against a store whose `findAll` succeeds. -/
def indexEndpoint (st : Store) : Res :=
  index_chain (Promise.ok st.rows)

/-- `show` against a store whose `find` succeeds. -/
def showEndpoint (st : Store) (id : Int) : Res :=
  show_chain (Promise.ok (Store.find st id))

/-- `create` against a store whose insert succeeds: the controller passes
`req.body` to `Property.create` unchanged. -/
def createEndpoint (st : Store) (body : Obj) : Res × Store :=
  (create_chain (Promise.ok (doCreate st body).1), (doCreate st body).2)

/-- `upsert` against a store whose upsert succeeds: the controller first strips a
truthy `id` from `req.body`, then calls `Property.upsert` with the result. -/
def upsertEndpoint (st : Store) (id : Int) (body : Obj) : Res × Store :=
  (upsert_chain (Promise.ok (doUpsert st id (stripBodyId body)).1),
   (doUpsert st id (stripBodyId body)).2)

/-- `patch` against a store whose calls succeed.  In `patch`, `req.body` is the
operations array; `req.body.id` on an array is `undefined`, hence falsy, so the
line-110 strip never deletes anything and is a no-op here. -/
def patchEndpoint (st : Store) (id : Int) (patches : List PatchOp) : Res × Store :=
  match patch_chain (Promise.ok (Store.find st id)) patches Promise.ok with
  | (r, none) => (r, st)
  | (r, some o1) => (r, Store.saveRow st id o1)

/-- `destroy` against a store whose calls succeed. -/
def destroyEndpoint (st : Store) (id : Int) : Res × Store :=
  match destroy_chain (Promise.ok (Store.find st id)) (Promise.ok Unit.unit) with
  | (r, true) => (r, Store.removeRow st id)
  | (r, false) => (r, st)

/-! ### Helper lemmas about objects and the store -/

theorem Obj.get_set_self (k : String) (v : JsVal) :
    ∀ (o : Obj), Obj.get (Obj.set o k v) k = some v := by
  intro o
  induction o with
  | nil => simp [Obj.set, Obj.get]
  | cons p rest ih =>
      obtain ⟨k1, v1⟩ := p
      by_cases h : k1 = k
      · simp [Obj.set, h, Obj.get]
      · simp [Obj.set, h, Obj.get, ih]

theorem Obj.set_of_get_none (k : String) (v : JsVal) :
    ∀ (o : Obj), Obj.get o k = none → Obj.set o k v = o ++ [(k, v)] := by
  intro o
  induction o with
  | nil => intro _; simp [Obj.set]
  | cons p rest ih =>
      obtain ⟨k1, v1⟩ := p
      intro h
      by_cases hk : k1 = k
      · simp [Obj.get, hk] at h
      · simp only [Obj.get, if_neg hk] at h
        simp [Obj.set, hk, ih h]

theorem Obj.get_delete_self (k : String) :
    ∀ (o : Obj), Obj.get (Obj.deleteProperty o k) k = none := by
  intro o
  induction o with
  | nil => simp [Obj.deleteProperty, Obj.get]
  | cons p rest ih =>
      obtain ⟨k1, v1⟩ := p
      by_cases hk : k1 = k
      · simp [Obj.deleteProperty, hk, ih]
      · simp [Obj.deleteProperty, hk, Obj.get, ih]

theorem find?_filter_not {α : Type} (p : α → Bool) (l : List α) :
    List.find? p (l.filter (fun o => !(p o))) = none := by
  rw [List.find?_eq_none]
  intro x hx
  rw [List.mem_filter] at hx
  simpa using hx.2

theorem find?_map_if {α : Type} (p : α → Bool) (e : α) (hpe : p e = true) :
    ∀ (l : List α) (x : α), List.find? p l = some x →
      List.find? p (l.map (fun o => if p o then e else o)) = some e := by
  intro l
  induction l with
  | nil => intro x hx; simp at hx
  | cons a t ih =>
      intro x hx
      by_cases hpa : p a = true
      · simp only [List.map_cons, if_pos hpa]
        rw [List.find?_cons_of_pos _ hpe]
      · have hpa' : ¬ p a = true := hpa
        rw [List.find?_cons_of_neg t hpa'] at hx
        simp only [List.map_cons, if_neg hpa']
        rw [List.find?_cons_of_neg _ hpa']
        exact ih x hx

theorem find_doUpsert (st : Store) (id : Int) (fields : Obj) :
    Store.find (doUpsert st id fields).2 id = some (Obj.set fields "id" (JsVal.num id)) := by
  have hrm : rowMatches id (Obj.set fields "id" (JsVal.num id)) = true := by
    simp [rowMatches, Obj.get_set_self]
  simp only [doUpsert, Store.find]
  cases h : List.find? (rowMatches id) st.rows with
  | none =>
      simp only [h]
      show List.find? (rowMatches id) (st.rows ++ [Obj.set fields "id" (JsVal.num id)])
        = some (Obj.set fields "id" (JsVal.num id))
      rw [List.find?_append, h]
      simp [List.find?_cons_of_pos _ hrm]
  | some old =>
      simp only [h]
      show List.find? (rowMatches id)
          (st.rows.map (fun o => if rowMatches id o then Obj.set fields "id" (JsVal.num id) else o))
        = some (Obj.set fields "id" (JsVal.num id))
      exact find?_map_if (rowMatches id) _ hrm st.rows old h

theorem find_removeRow (st : Store) (id : Int) :
    Store.find (Store.removeRow st id) id = none := by
  simp only [Store.find, Store.removeRow]
  exact find?_filter_not (rowMatches id) st.rows

theorem doUpsert_fst (st : Store) (id : Int) (fields : Obj) :
    (doUpsert st id fields).1 = Obj.set fields "id" (JsVal.num id) := by
  cases h : Store.find st id <;> simp [doUpsert, h]

/-! ### Claim theorems -/

/-- C3: for every entity present in the store, `show` responds 200 with the
entity's current persisted state as the body; for an absent id it responds 404
with an empty body and nothing else. -/
theorem show_contract (st : Store) (id : Int) :
    (∀ e, Store.find st id = some e →
        showEndpoint st id = [(200, Body.json (ChainVal.obj e))]) ∧
    (Store.find st id = none → showEndpoint st id = [(404, Body.empty)]) := by
  constructor
  · intro e he
    simp [showEndpoint, show_chain, he, optToChain, handleEntityNotFound,
      ChainVal.truthy, respondWithResult, jsOr]
  · intro hn
    simp [showEndpoint, show_chain, hn, optToChain, handleEntityNotFound,
      ChainVal.truthy, respondWithResult]

/-- Witness for C3 at a concrete one-row store. -/
theorem show_contract_witness :
    showEndpoint (Store.mk 2 [[("id", JsVal.num 1), ("name", JsVal.str "A")]]) 1
      = [(200, Body.json (ChainVal.obj [("id", JsVal.num 1), ("name", JsVal.str "A")]))] ∧
    showEndpoint (Store.mk 2 [[("id", JsVal.num 1), ("name", JsVal.str "A")]]) 9
      = [(404, Body.empty)] :=
  And.intro
    ((show_contract (Store.mk 2 [[("id", JsVal.num 1), ("name", JsVal.str "A")]]) 1).1
      [("id", JsVal.num 1), ("name", JsVal.str "A")] (by decide))
    ((show_contract (Store.mk 2 [[("id", JsVal.num 1), ("name", JsVal.str "A")]]) 9).2
      (by decide))

/-- C7: `handleEntityNotFound` on an absent (null) entity writes 404 with an
empty body and returns the short-circuit value null; on a present entity it
writes nothing and returns the entity unchanged. -/
theorem handleEntityNotFound_contract (r : Res) (o : Obj) :
    handleEntityNotFound ChainVal.nullV r = (r ++ [(404, Body.empty)], ChainVal.nullV) ∧
    handleEntityNotFound (ChainVal.obj o) r = (r, ChainVal.obj o) := by
  constructor
  · simp [handleEntityNotFound, ChainVal.truthy]
  · simp [handleEntityNotFound, ChainVal.truthy]

/-- C10: `index` always responds 200 with the full collection serialized as an
array; in particular on an empty store it responds 200 with the empty array —
respond-with-result treats every array, including the empty one, as a present
(truthy) result, so `index` never responds 404 and never leaves the request
without a success response. -/
theorem index_contract (st : Store) :
    indexEndpoint st = [(200, Body.json (ChainVal.arr st.rows))] ∧
    indexEndpoint (Store.mk 1 []) = [(200, Body.json (ChainVal.arr ([] : List Obj)))] := by
  constructor
  · simp [indexEndpoint, index_chain, respondWithResult, ChainVal.truthy, jsOr]
  · simp [indexEndpoint, index_chain, respondWithResult, ChainVal.truthy, jsOr]

/-- C6: `create(body)` responds 201 with an entity whose fields are the body
plus a generated `id`; the controller passes the request body to the insert
unchanged, so when the body has no `id` key the created entity is literally
the body with the generated `id` appended. -/
theorem create_contract (st : Store) (body : Obj) :
    (createEndpoint st body).1
      = [(201, Body.json (ChainVal.obj (Obj.set body "id" (JsVal.num st.nextId))))] ∧
    (createEndpoint st body).2
      = Store.mk (st.nextId + 1) (st.rows ++ [Obj.set body "id" (JsVal.num st.nextId)]) ∧
    (Obj.get body "id" = none →
      Obj.set body "id" (JsVal.num st.nextId) = body ++ [("id", JsVal.num st.nextId)]) := by
  refine ⟨?_, ?_, ?_⟩
  · simp [createEndpoint, create_chain, doCreate, respondWithResult, ChainVal.truthy, jsOr]
  · simp [createEndpoint, doCreate]
  · intro h
    exact Obj.set_of_get_none "id" (JsVal.num st.nextId) body h

/-- Witness for C6 at a concrete body without an `id` key. -/
theorem create_contract_witness :
    Obj.get [("name", JsVal.str "A")] "id" = none ∧
    Obj.set [("name", JsVal.str "A")] "id" (JsVal.num 5)
      = [("name", JsVal.str "A")] ++ [("id", JsVal.num 5)] :=
  And.intro (by decide)
    ((create_contract (Store.mk 5 []) [("name", JsVal.str "A")]).2.2 (by decide))

/-- C8: whenever a data-access call rejects with error `e`, the response is a
single 500 (the handle-error default — no operation passes an explicit status)
with `e` serialized as the body, for every operation, including the second
data-access call (`save` or `entity.destroy`) of `patch` and `destroy`; no
retry occurs. -/
theorem rejection_contract (e : String) (patches : List PatchOp) (ent : Obj)
    (d : Promise Unit) (f : Obj → Promise Obj) :
    index_chain (Promise.rejected e) = [(500, Body.err e)] ∧
    show_chain (Promise.rejected e) = [(500, Body.err e)] ∧
    create_chain (Promise.rejected e) = [(500, Body.err e)] ∧
    upsert_chain (Promise.rejected e) = [(500, Body.err e)] ∧
    patch_chain (Promise.rejected e) patches f = ([(500, Body.err e)], none) ∧
    destroy_chain (Promise.rejected e) d = ([(500, Body.err e)], false) ∧
    patch_chain (Promise.ok (some ent)) [] (fun _ => Promise.rejected e)
      = ([(500, Body.err e)], some ent) ∧
    destroy_chain (Promise.ok (some ent)) (Promise.rejected e)
      = ([(500, Body.err e)], true) := by
  refine ⟨?_, ?_, ?_, ?_, ?_, ?_, ?_, ?_⟩ <;>
    simp [index_chain, show_chain, create_chain, upsert_chain, patch_chain, destroy_chain,
      handleError, jsOr, optToChain, handleEntityNotFound, ChainVal.truthy,
      patchUpdatesPre, applyJsonPatch, respondWithResult]

/-- C4: `patch` on an existing entity: if applying the operations fails
validation, `save` is never called, the persisted state is unchanged and the
response is a single 500; on success the mutated entity is persisted and
returned with 200. -/
theorem patch_contract (st : Store) (id : Int) (ent : Obj) (patches : List PatchOp)
    (hfind : Store.find st id = some ent) :
    (∀ e, applyJsonPatch ent patches = Except.error e →
        patchEndpoint st id patches = ([(500, Body.err e)], st) ∧
        (patch_chain (Promise.ok (Store.find st id)) patches Promise.ok).2 = none) ∧
    (∀ o1, applyJsonPatch ent patches = Except.ok o1 →
        patchEndpoint st id patches
          = ([(200, Body.json (ChainVal.obj o1))], Store.saveRow st id o1)) := by
  constructor
  · intro e he
    constructor
    · simp [patchEndpoint, patch_chain, hfind, optToChain, handleEntityNotFound,
        ChainVal.truthy, patchUpdatesPre, he, handleError, jsOr]
    · simp [patch_chain, hfind, optToChain, handleEntityNotFound, ChainVal.truthy,
        patchUpdatesPre, he]
  · intro o1 ho
    simp [patchEndpoint, patch_chain, hfind, optToChain, handleEntityNotFound,
      ChainVal.truthy, patchUpdatesPre, ho, respondWithResult, jsOr]

/-- Witness for C4: a failing `test` operation leaves the store unchanged with
a 500, and a `replace` operation persists and returns the mutated entity. -/
theorem patch_contract_witness :
    patchEndpoint (Store.mk 2 [[("id", JsVal.num 1), ("name", JsVal.str "A")]]) 1
        [PatchOp.test "name" (JsVal.str "B")]
      = ([(500, Body.err "TEST_OPERATION_FAILED")],
         Store.mk 2 [[("id", JsVal.num 1), ("name", JsVal.str "A")]]) ∧
    patchEndpoint (Store.mk 2 [[("id", JsVal.num 1), ("name", JsVal.str "A")]]) 1
        [PatchOp.replace "name" (JsVal.str "X")]
      = ([(200, Body.json (ChainVal.obj [("id", JsVal.num 1), ("name", JsVal.str "X")]))],
         Store.saveRow (Store.mk 2 [[("id", JsVal.num 1), ("name", JsVal.str "A")]]) 1
           [("id", JsVal.num 1), ("name", JsVal.str "X")]) :=
  And.intro
    (((patch_contract (Store.mk 2 [[("id", JsVal.num 1), ("name", JsVal.str "A")]]) 1
        [("id", JsVal.num 1), ("name", JsVal.str "A")] [PatchOp.test "name" (JsVal.str "B")]
        (by decide)).1 "TEST_OPERATION_FAILED" (by rfl)).1)
    ((patch_contract (Store.mk 2 [[("id", JsVal.num 1), ("name", JsVal.str "A")]]) 1
        [("id", JsVal.num 1), ("name", JsVal.str "A")] [PatchOp.replace "name" (JsVal.str "X")]
        (by decide)).2 [("id", JsVal.num 1), ("name", JsVal.str "X")] (by rfl))

/-- C5: `destroy` on a present entity deletes it and responds 204 with no body,
and a subsequent `show` on the resulting store responds 404; on an absent
entity it responds 404, and the remove step performs no action (the store is
unchanged, `entity.destroy()` is never called) and writes no response. -/
theorem destroy_contract (st : Store) (id : Int) :
    (∀ ent, Store.find st id = some ent →
        destroyEndpoint st id = ([(204, Body.empty)], Store.removeRow st id) ∧
        showEndpoint (destroyEndpoint st id).2 id = [(404, Body.empty)]) ∧
    (Store.find st id = none →
        destroyEndpoint st id = ([(404, Body.empty)], st) ∧
        (destroy_chain (Promise.ok (Store.find st id)) (Promise.ok Unit.unit)).2 = false) := by
  constructor
  · intro ent hfind
    have hd : destroyEndpoint st id = ([(204, Body.empty)], Store.removeRow st id) := by
      simp [destroyEndpoint, destroy_chain, hfind, optToChain, handleEntityNotFound,
        ChainVal.truthy]
    refine ⟨hd, ?_⟩
    rw [hd]
    have hn : Store.find (Store.removeRow st id) id = none := find_removeRow st id
    simp [showEndpoint, show_chain, hn, optToChain, handleEntityNotFound,
      ChainVal.truthy, respondWithResult]
  · intro hn
    constructor
    · simp [destroyEndpoint, destroy_chain, hn, optToChain, handleEntityNotFound,
        ChainVal.truthy]
    · simp [destroy_chain, hn, optToChain, handleEntityNotFound, ChainVal.truthy]

/-- Witness for C5 at a concrete one-row store. -/
theorem destroy_contract_witness :
    destroyEndpoint (Store.mk 2 [[("id", JsVal.num 1)]]) 1
      = ([(204, Body.empty)], Store.removeRow (Store.mk 2 [[("id", JsVal.num 1)]]) 1) ∧
    showEndpoint (destroyEndpoint (Store.mk 2 [[("id", JsVal.num 1)]]) 1).2 1
      = [(404, Body.empty)] ∧
    destroyEndpoint (Store.mk 2 [[("id", JsVal.num 1)]]) 9
      = ([(404, Body.empty)], Store.mk 2 [[("id", JsVal.num 1)]]) :=
  And.intro
    (((destroy_contract (Store.mk 2 [[("id", JsVal.num 1)]]) 1).1
        [("id", JsVal.num 1)] (by decide)).1)
    (And.intro
      (((destroy_contract (Store.mk 2 [[("id", JsVal.num 1)]]) 1).1
          [("id", JsVal.num 1)] (by decide)).2)
      (((destroy_contract (Store.mk 2 [[("id", JsVal.num 1)]]) 9).2 (by decide)).1))

/-- C1: evaluating `patch` at a non-existent id shows the code bug: the
controller writes the 404 with empty body and performs no save (`save` is
never called and the store is unchanged), but the chain does not stop —
`patchUpdates` is invoked with the null short-circuit marker, throws, and
`handleError` writes a second response with status 500 for the same request,
contradicting the "no further processing, no second response" contract. -/
theorem patch_missing_id_second_response :
    patchEndpoint (Store.mk 1 []) 1 [PatchOp.replace "name" (JsVal.str "x")]
      = ([(404, Body.empty), (500, Body.err nullEntityErr)], Store.mk 1 []) ∧
    (patch_chain (Promise.ok (none : Option Obj)) [PatchOp.replace "name" (JsVal.str "x")]
        Promise.ok).2 = none := by
  constructor
  · rfl
  · rfl

/-- C2 counterexample: with the falsy body value `id: 0`, the client-supplied
`id` is NOT discarded before the persistence call — the strip guard
`if (req.body.id)` skips falsy values, so the body reaches `Property.upsert`
with its `id` key intact. -/
theorem upsert_keeps_falsy_id_cex :
    Obj.get (stripBodyId [("id", JsVal.num 0), ("name", JsVal.str "A")]) "id"
      = some (JsVal.num 0) ∧
    stripBodyId [("id", JsVal.num 0), ("name", JsVal.str "A")]
      = [("id", JsVal.num 0), ("name", JsVal.str "A")] := by
  constructor
  · rfl
  · rfl

/-- C2 (amended): a truthy client-supplied `id` is discarded from the body
before the persistence call (falsy `id` values are retained); in every case
the upsert responds 200 with the persisted entity, which is stored at the path
parameter and whose `id` attribute equals the path parameter. -/
theorem upsert_contract (st : Store) (pathId : Int) (body : Obj) :
    (jsTruthy (Obj.get body "id") = true → Obj.get (stripBodyId body) "id" = none) ∧
    (upsertEndpoint st pathId body).1
      = [(200, Body.json (ChainVal.obj (Obj.set (stripBodyId body) "id" (JsVal.num pathId))))] ∧
    Store.find (upsertEndpoint st pathId body).2 pathId
      = some (Obj.set (stripBodyId body) "id" (JsVal.num pathId)) ∧
    Obj.get (Obj.set (stripBodyId body) "id" (JsVal.num pathId)) "id"
      = some (JsVal.num pathId) := by
  refine ⟨?_, ?_, ?_, ?_⟩
  · intro h
    simp [stripBodyId, h, Obj.get_delete_self]
  · show upsert_chain (Promise.ok (doUpsert st pathId (stripBodyId body)).1) = _
    rw [doUpsert_fst]
    simp [upsert_chain, respondWithResult, ChainVal.truthy, jsOr]
  · show Store.find (doUpsert st pathId (stripBodyId body)).2 pathId = _
    exact find_doUpsert st pathId (stripBodyId body)
  · exact Obj.get_set_self "id" (JsVal.num pathId) (stripBodyId body)

/-- Witness for the amended C2 at a concrete truthy-id body. -/
theorem upsert_contract_witness :
    Obj.get (stripBodyId [("id", JsVal.num 5), ("name", JsVal.str "B")]) "id" = none ∧
    (upsertEndpoint (Store.mk 2 []) 7 [("id", JsVal.num 5), ("name", JsVal.str "B")]).1
      = [(200, Body.json (ChainVal.obj
          (Obj.set (stripBodyId [("id", JsVal.num 5), ("name", JsVal.str "B")]) "id"
            (JsVal.num 7))))] :=
  And.intro
    ((upsert_contract (Store.mk 2 []) 7 [("id", JsVal.num 5), ("name", JsVal.str "B")]).1
      (by decide))
    ((upsert_contract (Store.mk 2 []) 7 [("id", JsVal.num 5), ("name", JsVal.str "B")]).2.1)

/-- C9: the body `id` key is removed only when its value is truthy: a falsy
`id` (such as 0, the empty string, or false) is retained and passed through to
the persistence call, while a truthy `id` is deleted. -/
theorem stripBodyId_truthiness (body : Obj) (v : JsVal) :
    (Obj.get body "id" = some v → JsVal.truthy v = false →
      stripBodyId body = body ∧ Obj.get (stripBodyId body) "id" = some v) ∧
    (jsTruthy (Obj.get body "id") = true → Obj.get (stripBodyId body) "id" = none) := by
  constructor
  · intro hv hf
    have hb : stripBodyId body = body := by
      simp [stripBodyId, jsTruthy, hv, hf]
    exact And.intro hb (by rw [hb, hv])
  · intro h
    simp [stripBodyId, h, Obj.get_delete_self]

/-- Witness for C9 at the three falsy values and one truthy value. -/
theorem stripBodyId_truthiness_witness :
    stripBodyId [("id", JsVal.num 0)] = [("id", JsVal.num 0)] ∧
    stripBodyId [("id", JsVal.str "")] = [("id", JsVal.str "")] ∧
    stripBodyId [("id", JsVal.bool false)] = [("id", JsVal.bool false)] ∧
    Obj.get (stripBodyId [("id", JsVal.num 5)]) "id" = none :=
  And.intro
    (((stripBodyId_truthiness [("id", JsVal.num 0)] (JsVal.num 0)).1
        (by decide) (by decide)).1)
    (And.intro
      (((stripBodyId_truthiness [("id", JsVal.str "")] (JsVal.str "")).1
          (by decide) (by decide)).1)
      (And.intro
        (((stripBodyId_truthiness [("id", JsVal.bool false)] (JsVal.bool false)).1
            (by decide) (by decide)).1)
        ((stripBodyId_truthiness [("id", JsVal.num 5)] (JsVal.num 5)).2 (by decide))))

end PropCtrl
